import Mathlib

/-!
Shallow embedding of the openTrackers monitor (`main.py`) and the standalone
HTML scraper (`scraper.py`).

Conventions of the embedding:
* Python strings are modelled as `List Char`.  Text fields taken from JSON are
  modelled as the text *after* Python's `html.unescape` has been applied
  (`unescape` is total and the program applies it immediately on access, so the
  embedding works directly with the decoded text).
* JSON-shape mismatches (a missing key raising `KeyError`, an unparsable date
  raising `ValueError`) are modelled with `Option`: a field that may be missing
  is an `Option`, and a parse that may raise returns `none`.
* Python `datetime` values are modelled by their civil fields
  (year-month-day-hour-minute-second); comparison of naive datetimes is
  lexicographic on those fields.
* Network calls are modelled by passing the response (or a transport error) as
  an explicit argument of type `Except` / a stream of attempts.
-/

/-- `needle` is an initial segment of `hay` (Python `str.startswith`). -/
def isPrefixCh : List Char → List Char → Bool
  | [], _ => true
  | _ :: _, [] => false
  | a :: as, b :: bs => a == b && isPrefixCh as bs

/-- Python substring test `needle in hay`. -/
def containsCh : List Char → List Char → Bool
  | [], needle => needle.isEmpty
  | hay@(_ :: t), needle => isPrefixCh needle hay || containsCh t needle

theorem isPrefixCh_iff : ∀ (nd hay : List Char),
    isPrefixCh nd hay = true ↔ ∃ t, hay = nd ++ t
  | [], hay => by simp [isPrefixCh]
  | _ :: _, [] => by simp [isPrefixCh]
  | a :: as, b :: bs => by
    simp only [isPrefixCh, Bool.and_eq_true, beq_iff_eq, isPrefixCh_iff as bs,
      List.cons_append, List.cons.injEq]
    constructor
    · rintro ⟨rfl, t, rfl⟩
      exact ⟨t, rfl, rfl⟩
    · rintro ⟨t, rfl, rfl⟩
      exact ⟨rfl, t, rfl⟩

/-- Specification of the substring test: `containsCh hay nd` holds exactly when
`hay` decomposes as `s ++ nd ++ t`. -/
theorem containsCh_iff : ∀ (hay nd : List Char),
    containsCh hay nd = true ↔ ∃ s t, hay = s ++ nd ++ t
  | [], nd => by
    simp only [containsCh, List.isEmpty_iff]
    constructor
    · rintro rfl
      exact ⟨[], [], rfl⟩
    · rintro ⟨s, t, h⟩
      rcases List.append_eq_nil.mp h.symm with ⟨h1, h2⟩
      exact (List.append_eq_nil.mp h1).2
  | c :: tl, nd => by
    simp only [containsCh, Bool.or_eq_true, isPrefixCh_iff, containsCh_iff tl nd]
    constructor
    · rintro (⟨t, ht⟩ | ⟨s, t, hst⟩)
      · exact ⟨[], t, by simpa using ht⟩
      · exact ⟨c :: s, t, by simp [hst]⟩
    · rintro ⟨s, t, e⟩
      match s, e with
      | [], e => exact Or.inl ⟨t, by simpa using e⟩
      | s0 :: s', e =>
        simp only [List.cons_append, List.cons.injEq] at e
        exact Or.inr ⟨s', t, e.2⟩

/-- Worker for `replaceAllWith`; `fuel` bounds the number of steps (each step
consumes at least one character, so `fuel = length` is enough).  Structural
recursion on the fuel keeps the definition kernel-reducible. -/
def replaceGo (old new : List Char) : Nat → List Char → List Char
  | 0, l => l
  | _ + 1, [] => []
  | fuel + 1, c :: rest =>
    if old ≠ [] ∧ isPrefixCh old (c :: rest) then
      new ++ replaceGo old new fuel (List.drop (old.length - 1) rest)
    else
      c :: replaceGo old new fuel rest

/-- Python `s.replace(old, new)`: replace non-overlapping occurrences of `old`
left to right.  (The program only ever calls `replace` with a non-empty `old`;
for an empty `old` the model returns the string unchanged.) -/
def replaceAllWith (old new s : List Char) : List Char :=
  replaceGo old new s.length s

/-- The whitespace characters recognised by Python's `str.strip` / `\s`
(restricted to ASCII, which covers the program's data). -/
def isSpaceCh (c : Char) : Bool :=
  c == ' ' || c == '\t' || c == '\n' || c == '\r' || c == '\x0b' || c == '\x0c'

/-- Python `str.strip()`. -/
def stripCh (s : List Char) : List Char :=
  ((s.dropWhile isSpaceCh).reverse.dropWhile isSpaceCh).reverse

/-- The open-signup marker phrase tested by both adapters (main.py 57, 108). -/
def openPhrase : List Char := "is Open for Limited Signup!".data

/-- The space-preceded variant stripped from titles (main.py 58, 109). -/
def openSuffix : List Char := " is Open for Limited Signup!".data

/-- A Python `datetime` value: its civil fields (whole seconds; the program
never inspects microseconds) and its timezone-awareness — `tz = none` for a
naive value, `tz = some z` for an offset-aware value with a fixed UTC offset
of `z` minutes (what `fromisoformat` attaches for a `±HH:MM` suffix). -/
structure PyDateTime where
  year : Int
  month : Nat
  day : Nat
  hour : Nat
  minute : Nat
  second : Nat
  tz : Option Int
deriving DecidableEq

/-- Comparison of two *naive* Python `datetime` values: lexicographic on
(year, month, day, hour, minute, second). -/
def PyDateTime.naiveLeB (a b : PyDateTime) : Bool :=
  decide (a.year < b.year ∨ (a.year = b.year ∧ (a.month < b.month ∨ (a.month = b.month ∧
    (a.day < b.day ∨ (a.day = b.day ∧ (a.hour < b.hour ∨ (a.hour = b.hour ∧
    (a.minute < b.minute ∨ (a.minute = b.minute ∧ a.second ≤ b.second))))))))))

/-- Days from 1970-01-01 of a civil date, proleptic Gregorian (the standard
civil-to-days algorithm; inverse of `civilFromDays` on valid dates). -/
def daysFromCivil (y0 : Int) (m d : Nat) : Int :=
  let y : Int := if m ≤ 2 then y0 - 1 else y0
  let era : Int := (if 0 ≤ y then y else y - 399) / 400
  let yoe : Nat := (y - era * 400).toNat
  let mp : Nat := if 2 < m then m - 3 else m + 9
  let doy : Nat := (153 * mp + 2) / 5 + d - 1
  let doe : Nat := yoe * 365 + yoe / 4 - yoe / 100 + doy
  era * 146097 + (doe : Int) - 719468

/-- The instant of an offset-aware value, in seconds since the epoch: the
civil value minus its `utcoffset`.  Python compares offset-aware `datetime`
values by exactly this quantity. -/
def PyDateTime.utcSecs (d : PyDateTime) : Int :=
  daysFromCivil d.year d.month d.day * 86400 +
    (d.hour : Int) * 3600 + (d.minute : Int) * 60 + (d.second : Int) -
    (d.tz.getD 0) * 60

/-- Python `datetime` comparison `a <= b` on the cases where it is defined:
two naive values compare lexicographically on the civil fields, two aware
values compare by their UTC instants.  Comparing a naive with an aware value
raises `TypeError` in Python; the two mixed branches below are an arbitrary
completion (naive before aware) needed only to keep the relation total —
`pySortDesc` tests `mixedAwareness` first, so the completion is never
observable in any modelled output. -/
def PyDateTime.leB (a b : PyDateTime) : Bool :=
  match a.tz, b.tz with
  | none, none => a.naiveLeB b
  | some _, some _ => decide (a.utcSecs ≤ b.utcSecs)
  | none, some _ => true
  | some _, none => false

theorem naiveLeB_trans (a b c : PyDateTime) (h1 : a.naiveLeB b = true)
    (h2 : b.naiveLeB c = true) : a.naiveLeB c = true := by
  simp only [PyDateTime.naiveLeB, decide_eq_true_eq] at h1 h2 ⊢
  omega

theorem naiveLeB_total (a b : PyDateTime) :
    a.naiveLeB b = true ∨ b.naiveLeB a = true := by
  simp only [PyDateTime.naiveLeB, decide_eq_true_eq]
  omega

theorem pyLeB_trans (a b c : PyDateTime) (h1 : a.leB b = true) (h2 : b.leB c = true) :
    a.leB c = true := by
  unfold PyDateTime.leB at h1 h2 ⊢
  cases ha : a.tz <;> cases hb : b.tz <;> cases hc : c.tz <;>
    simp [ha, hb, hc] at h1 h2 ⊢
  · exact naiveLeB_trans a b c h1 h2
  · exact le_trans h1 h2

theorem pyLeB_total (a b : PyDateTime) : a.leB b = true ∨ b.leB a = true := by
  unfold PyDateTime.leB
  cases ha : a.tz <;> cases hb : b.tz <;> simp [ha, hb]
  · exact naiveLeB_total a b
  · exact le_total a.utcSecs b.utcSecs

/-- The record both adapters normalize into (`TrackerData`, main.py 16-23). -/
structure TrackerData where
  name : List Char
  date : PyDateTime
  description : List Char
  categories : List (List Char)
  url : List Char
  status : Bool
deriving DecidableEq

/-- `status = "is Open for Limited Signup!" in title` (main.py 57 and 108). -/
def titleStatus (title : List Char) : Bool := containsCh title openPhrase

/-- `title.replace(' is Open for Limited Signup!', '').strip()` (main.py 58 and 109). -/
def cleanTitle (title : List Char) : List Char :=
  stripCh (replaceAllWith openSuffix [] title)

/-- `description.replace('<p>', '').replace('</p>', '').strip()` (main.py 60). -/
def cleanExcerpt (e : List Char) : List Char :=
  stripCh (replaceAllWith "</p>".data [] (replaceAllWith "<p>".data [] e))

/-- Read one ASCII digit. -/
def readDigit (c : Char) : Option Nat :=
  if '0' ≤ c ∧ c ≤ '9' then some (c.toNat - '0'.toNat) else none

/-- Read exactly `n` digits, most significant first, returning the value and
the rest of the input. -/
def readNatFixed (acc : Nat) : Nat → List Char → Option (Nat × List Char)
  | 0, s => some (acc, s)
  | _ + 1, [] => none
  | n + 1, c :: s =>
    match readDigit c with
    | some d => readNatFixed (acc * 10 + d) n s
    | none => none

/-- Consume one expected character. -/
def expectCh (c : Char) : List Char → Option (List Char)
  | [] => none
  | x :: s => if x = c then some s else none

/-- Parse the ISO-8601 UTC-offset tail: the empty string yields a *naive*
result (`some none`), a `±HH:MM` suffix yields an *aware* result with the
signed offset in minutes (`some (some z)`), anything else is a parse
failure. -/
def parseOffset (s : List Char) : Option (Option Int) :=
  match s with
  | [] => some none
  | c :: rest =>
    if c = '+' ∨ c = '-' then
      match readNatFixed 0 2 rest with
      | some (h, r) =>
        (match expectCh ':' r with
         | some r2 =>
           (match readNatFixed 0 2 r2 with
            | some (mi, r3) =>
              if r3.isEmpty ∧ h ≤ 23 ∧ mi ≤ 59 then
                some (some ((if c = '-' then -1 else 1) * ((h : Int) * 60 + mi)))
              else none
            | none => none)
         | none => none)
      | none => none
    else none

/-- Models `datetime.fromisoformat` on the shapes the WordPress REST API
emits: `YYYY-MM-DDTHH:MM:SS` (a space instead of `T` is also accepted),
optionally followed by a `+HH:MM` / `-HH:MM` offset (main.py 68 turns a
trailing `Z` into `+00:00` before parsing).  A bare timestamp gives a naive
value; an offset suffix gives an offset-*aware* value carrying the offset,
exactly as `fromisoformat` attaches a fixed-offset timezone.  Any other
input is a parse failure (`ValueError`), modelled as `none`. -/
def parseIso (s : List Char) : Option PyDateTime := do
  let (y, s) ← readNatFixed 0 4 s
  let s ← expectCh '-' s
  let (mo, s) ← readNatFixed 0 2 s
  let s ← expectCh '-' s
  let (d, s) ← readNatFixed 0 2 s
  let s ← (expectCh 'T' s).orElse (fun _ => expectCh ' ' s)
  let (h, s) ← readNatFixed 0 2 s
  let s ← expectCh ':' s
  let (mi, s) ← readNatFixed 0 2 s
  let s ← expectCh ':' s
  let (sec, s) ← readNatFixed 0 2 s
  let tz ← parseOffset s
  if 1 ≤ y ∧ 1 ≤ mo ∧ mo ≤ 12 ∧ 1 ≤ d ∧ d ≤ 31 ∧ h ≤ 23 ∧ mi ≤ 59 ∧ sec ≤ 59 then
    some ⟨(y : Int), mo, d, h, mi, sec, tz⟩
  else
    none

/-- One embedded taxonomy term (`_embedded['wp:term'][0][i]`), with the keys
the code reads; a missing key is `none` (a `KeyError` in Python). -/
structure WPTerm where
  name : Option (List Char)
  taxonomy : Option (List Char)
deriving DecidableEq

/-- One WordPress post object, with exactly the keys `_parse_post` reads
(`title.rendered`, `excerpt.rendered`, `date`, `link`,
`_embedded['wp:term'][0]`); `none` models a missing / wrongly-shaped key. -/
structure WPPost where
  titleRendered : Option (List Char)
  excerptRendered : Option (List Char)
  date : Option (List Char)
  link : Option (List Char)
  terms : Option (List WPTerm)
deriving DecidableEq

/-- All-or-nothing traversal (a Python list comprehension: the first exception
aborts the whole comprehension). -/
def optionTraverse (f : α → Option β) : List α → Option (List β)
  | [] => some []
  | a :: l =>
    match f a with
    | none => none
    | some b =>
      match optionTraverse f l with
      | none => none
      | some bs => some (b :: bs)

/-- `term['name'] for term ... if term['taxonomy'] == 'category'` (main.py
61-65): reading `taxonomy` can raise; `name` is only read when the taxonomy
matches; non-category terms contribute nothing (`some none`). -/
def termCategory (t : WPTerm) : Option (Option (List Char)) :=
  match t.taxonomy with
  | none => none
  | some tax =>
    if tax = "category".data then
      match t.name with
      | none => none
      | some nm => some (some nm)
    else some none

/-- `WordPressAPI._parse_post` (main.py 55-73); `none` models an exception
(missing key, unparsable date) escaping to the caller's handler. -/
def wp_parse_post (post : WPPost) : Option TrackerData :=
  match post.titleRendered, post.excerptRendered, post.terms, post.date, post.link with
  | some title, some ex, some terms, some dateRaw, some link =>
    match optionTraverse termCategory terms,
        parseIso (replaceAllWith ['Z'] "+00:00".data dateRaw) with
    | some cats, some dt =>
      some {
        name := cleanTitle title
        date := dt
        description := cleanExcerpt ex
        categories := cats.filterMap id
        url := link
        status := titleStatus title }
    | _, _ => none
  | _, _, _, _, _ => none

/-- `WordPressAPI.fetch_posts` (main.py 44-53): a transport / HTTP-status /
JSON error (`Except.error`), or a parse failure on any single post, degrades
the whole fetch to `[]`; the function itself never raises. -/
def wp_fetch_posts (resp : Except Unit (List WPPost)) : List TrackerData :=
  match resp with
  | .error _ => []
  | .ok posts =>
    match optionTraverse wp_parse_post posts with
    | some l => l
    | none => []

/-- One Reddit post `data` object, with the keys `_parse_post` reads via
`.get` (all reads are defaulted, so a missing key is harmless). -/
structure RedditPost where
  title : Option (List Char)
  selftext : Option (List Char)
  created_utc : Option Int
  url : Option (List Char)
  id : Option (List Char)
deriving DecidableEq

/-- One listing child; `post["data"]` (main.py 101) raises if the key is
missing, hence the `Option`. -/
structure RedditChild where
  data : Option RedditPost
deriving DecidableEq

/-- The `data` object of a Reddit listing (`children` read via `.get`). -/
structure RedditData where
  children : Option (List RedditChild)
deriving DecidableEq

/-- A Reddit listing; the outer `data` key is read via `.get`. -/
structure RedditListing where
  data : Option RedditData
deriving DecidableEq

/-- Days since 1970-01-01 to a civil (year, month, day), proleptic Gregorian
(the standard days-to-civil algorithm, with C-style truncating division on
the possibly negative `era` computation). -/
def civilFromDays (z0 : Int) : Int × Nat × Nat :=
  let z := z0 + 719468
  let era := (if 0 ≤ z then z else z - 146096) / 146097
  let doe := (z - era * 146097).toNat
  let yoe := (doe - doe / 1460 + doe / 36524 - doe / 146096) / 365
  let y := (yoe : Int) + era * 400
  let doy := doe - (365 * yoe + yoe / 4 - yoe / 100)
  let mp := (5 * doy + 2) / 153
  let d := doy - (153 * mp + 2) / 5 + 1
  let m := if mp < 10 then mp + 3 else mp - 9
  (if m ≤ 2 then y + 1 else y, m, d)

/-- `datetime.utcfromtimestamp` on whole seconds (Python floor-divides the
timestamp into days and a time of day); the result is a *naive* datetime
(`tz = none`). -/
def utcfromtimestamp (t : Int) : PyDateTime :=
  let days := t.fdiv 86400
  let rem := (t - days * 86400).toNat
  let c := civilFromDays days
  { year := c.1, month := c.2.1, day := c.2.2,
    hour := rem / 3600, minute := rem % 3600 / 60, second := rem % 60,
    tz := none }

/-- `self._base_url` of `RedditAPI` (main.py 81). -/
def redditBase (subreddit : List Char) : List Char :=
  "https://www.reddit.com/r/".data ++ subreddit

/-- `RedditAPI._parse_post` (main.py 106-122); `now` stands for
`datetime.utcnow()`.  Note the truthiness test on `created_utc`: the value 0
falls through to `utcnow()`. -/
def reddit_parse_post (subreddit : List Char) (now : PyDateTime)
    (post : RedditPost) : TrackerData :=
  let title := post.title.getD []
  { name :=
      let n := cleanTitle title
      if n = [] then post.id.getD "No Title".data else n
    date :=
      match post.created_utc with
      | some c => if c ≠ 0 then utcfromtimestamp c else now
      | none => now
    description := stripCh (post.selftext.getD [])
    categories := []
    url := post.url.getD (redditBase subreddit)
    status := titleStatus title }

/-- `RedditAPI.fetch_posts` (main.py 93-104): `data` and `children` are read
with defaults, but `post["data"]` on any single child aborts the whole fetch;
any transport / HTTP-status / JSON error degrades to `[]`. -/
def reddit_fetch_posts (subreddit : List Char) (now : PyDateTime)
    (resp : Except Unit RedditListing) : List TrackerData :=
  match resp with
  | .error _ => []
  | .ok listing =>
    let children :=
      match listing.data with
      | none => []
      | some d => d.children.getD []
    match optionTraverse RedditChild.data children with
    | none => []
    | some posts => posts.map (reddit_parse_post subreddit now)

/-- The key order used by `sorted(trackers, key=lambda x: x.date, reverse=True)`
(main.py 201 and 230): `a` may come before `b` when `b.date <= a.date`. -/
def dateGe (a b : TrackerData) : Prop := PyDateTime.leB b.date a.date = true

instance : DecidableRel dateGe := fun a b => by unfold dateGe; infer_instance

instance : IsTotal TrackerData dateGe :=
  ⟨fun a b => pyLeB_total b.date a.date⟩

instance : IsTrans TrackerData dateGe :=
  ⟨fun a b c h1 h2 => pyLeB_trans c.date b.date a.date h2 h1⟩

/-- Python's stable descending sort by `date`, on a list whose dates are
uniformly naive or uniformly aware (the only lists the program can sort
without raising), modelled by the (stable) insertion sort under `dateGe`. -/
def sortByDateDesc (ts : List TrackerData) : List TrackerData :=
  ts.insertionSort dateGe

/-- Does the record carry an offset-aware date? -/
def isAware (t : TrackerData) : Bool := t.date.tz.isSome

/-- The list mixes offset-aware and naive dates.  In the program this is
exactly the condition under which `sorted(..., key=lambda x: x.date, ...)`
raises `TypeError`: a comparison sort must order every adjacent output pair,
every comparison chain justifying an aware-before-naive (or converse)
ordering changes awareness at some link, and that link is a naive-vs-aware
comparison, which raises; conversely with uniform awareness every
comparison is defined. -/
def mixedAwareness (ts : List TrackerData) : Bool :=
  ts.any isAware && ts.any (fun t => !isAware t)

/-- `sorted(trackers, key=lambda x: x.date, reverse=True)` as the program
runs it (main.py 201 and 230): a `TypeError` (`Except.error`) on a mix of
offset-aware and naive dates, the stable descending order otherwise. -/
def pySortDesc (ts : List TrackerData) : Except Unit (List TrackerData) :=
  if mixedAwareness ts then .error () else .ok (sortByDateDesc ts)

/-- Decimal digits of `n`, left-padded with `'0'` to width `w`. -/
def padNat (w n : Nat) : List Char :=
  let ds := Nat.toDigits 10 n
  List.replicate (w - ds.length) '0' ++ ds

/-- Four-digit year rendering (a leading `'-'` for negative years). -/
def padYear (y : Int) : List Char :=
  if y < 0 then '-' :: padNat 4 (-y).toNat else padNat 4 y.toNat

/-- `strftime('%Y-%m-%d')`. -/
def PyDateTime.dateStr (d : PyDateTime) : List Char :=
  padYear d.year ++ "-".data ++ padNat 2 d.month ++ "-".data ++ padNat 2 d.day

/-- The `±HH:MM` suffix `isoformat()` appends for an offset-aware value
(nothing for a naive one); the offset is in minutes. -/
def offsetStr : Option Int → List Char
  | none => []
  | some z =>
    (if z < 0 then "-".data else "+".data) ++
      padNat 2 (z.natAbs / 60) ++ ":".data ++ padNat 2 (z.natAbs % 60)

/-- `isoformat()` on a whole-second datetime: the civil fields, plus the
UTC-offset suffix when the value is aware. -/
def PyDateTime.isoStr (d : PyDateTime) : List Char :=
  d.dateStr ++ "T".data ++ padNat 2 d.hour ++ ":".data ++ padNat 2 d.minute ++
    ":".data ++ padNat 2 d.second ++ offsetStr d.tz

/-- `', '.join(cats)`. -/
def joinCommaSp : List (List Char) → List Char
  | [] => []
  | [c] => c
  | c :: rest => c ++ ", ".data ++ joinCommaSp rest

/-- `', '.join(tracker.categories) if tracker.categories else '-'`
(main.py 204 and 231). -/
def catCell (cats : List (List Char)) : List Char :=
  if cats = [] then "-".data else joinCommaSp cats

/-- `TrackerStatus.OPEN.value if tracker.status else TrackerStatus.CLOSED.value`
(main.py 206 and 232; enum values at 25-27). -/
def statusCell (b : Bool) : List Char :=
  if b then "🟢 Open".data else "🔴 Closed".data

/-- One console-table row (`table.add_row`, main.py 202-207). -/
def displayRow (t : TrackerData) : List Char × List Char × List Char × List Char :=
  (t.name, catCell t.categories, t.date.dateStr, statusCell t.status)

/-- The rows `_display_results` adds, in order (main.py 195-208); the
`sorted` call runs before any row is added, so a mixed-awareness list makes
the whole rendering raise (`Except.error`) with no rows produced. -/
def display_rows (ts : List TrackerData) :
    Except Unit (List (List Char × List Char × List Char × List Char)) :=
  match pySortDesc ts with
  | .error e => .error e
  | .ok l => .ok (l.map displayRow)

/-- One Markdown table line (main.py 231-233). -/
def markdownRow (t : TrackerData) : List Char :=
  "| ".data ++ t.name ++ " | ".data ++ catCell t.categories ++ " | ".data ++
    t.date.dateStr ++ " | ".data ++ statusCell t.status ++ " |\n".data

/-- The Markdown table lines `_create_markdown_report` appends, in order
(main.py 230-234); the same `sorted` call, so the same `TypeError` on a
mixed-awareness list. -/
def report_rows (ts : List TrackerData) : Except Unit (List (List Char)) :=
  match pySortDesc ts with
  | .error e => .error e
  | .ok l => .ok (l.map markdownRow)

/-- `category_stats[category] = category_stats.get(category, 0) + 1` for one
category (main.py 150-152 and 212-214); a Python dict in insertion order is
modelled by an association list. -/
def bumpCat : List (List Char × Nat) → List Char → List (List Char × Nat)
  | [], c => [(c, 1)]
  | (k, v) :: rest, c =>
    if k = c then (k, v + 1) :: rest else (k, v) :: bumpCat rest c

/-- The category statistics computed by both `create_visualizations`
(main.py 149-152) and `_create_markdown_report` (211-214). -/
def categoryStats (ts : List TrackerData) : List (List Char × Nat) :=
  ts.foldl (fun s t => t.categories.foldl bumpCat s) []

/-- Occurrence count recorded for a category (0 when absent, as
`dict.get(c, 0)` would report). -/
def lookupCat : List (List Char × Nat) → List Char → Nat
  | [], _ => 0
  | (k, v) :: rest, c => if k = c then v else lookupCat rest c

/-- `f'trackers_{current_date}.json'` (main.py 138). -/
def datedFileName (now : PyDateTime) : List Char :=
  "trackers_".data ++ now.dateStr ++ ".json".data

/-- `'latest.json'` (main.py 138). -/
def latestFileName : List Char := "latest.json".data

/-- `'README.md'` (main.py 235). -/
def readmeFileName : List Char := "README.md".data

/-- The chart files `create_visualizations` writes (main.py 159, 164). -/
def chartFileNames : List (List Char) :=
  ["category_distribution.png".data, "category_percentage.png".data]

/-- A serialized tracker as built by `_serialize_tracker` (main.py 142-143):
every non-`date` field unchanged, plus `date.isoformat()`. -/
structure SerTracker where
  name : List Char
  description : List Char
  categories : List (List Char)
  url : List Char
  status : Bool
  dateIso : List Char
deriving DecidableEq

/-- `_serialize_tracker` (main.py 142-143). -/
def serialize_tracker (t : TrackerData) : SerTracker :=
  ⟨t.name, t.description, t.categories, t.url, t.status, t.date.isoStr⟩

/-- The object `DataManager.save` dumps (main.py 133-136). -/
structure SaveData where
  last_updated : List Char
  trackers : List SerTracker
deriving DecidableEq

/-- The `data` dictionary of `DataManager.save`; `now` stands for
`datetime.now()` (the code calls it twice in `save`, microseconds apart; the
model uses one value for both the timestamp and the file name). -/
def saveData (now : PyDateTime) (ts : List TrackerData) : SaveData :=
  ⟨now.isoStr, ts.map serialize_tracker⟩

/-- `DataManager.save` (main.py 132-141) as its list of (file name, dumped
content) writes, in order. -/
def save_writes (now : PyDateTime) (ts : List TrackerData) :
    List (List Char × SaveData) :=
  [(datedFileName now, saveData now ts), (latestFileName, saveData now ts)]

/-- Overwriting write of one file into a directory, modelled as an
association list from file name to content. -/
def writeFS (fs : List (List Char × SaveData)) (n : List Char) (c : SaveData) :
    List (List Char × SaveData) :=
  match fs with
  | [] => [(n, c)]
  | (k, v) :: rest => if k = n then (n, c) :: rest else (k, v) :: writeFS rest n c

/-- Read one file back from the modelled directory. -/
def readFS (fs : List (List Char × SaveData)) (n : List Char) : Option SaveData :=
  match fs with
  | [] => none
  | (k, v) :: rest => if k = n then some v else readFS rest n

/-- Running `DataManager.save` against a directory state: perform its writes
in order. -/
def apply_save (fs : List (List Char × SaveData)) (now : PyDateTime)
    (ts : List TrackerData) : List (List Char × SaveData) :=
  (save_writes now ts).foldl (fun acc nc => writeFS acc nc.1 nc.2) fs

/-- What one `TrackerMonitor.run` emits (main.py 177-193): whether the
"No trackers found" notice is printed, which data-directory files are
written, and whether the handler at 189 caught an exception (printing
"Error in main run").  In either case the run terminates cleanly (the model
is a total function). -/
structure RunOutcome where
  noTrackersNotice : Bool
  filesWritten : List (List Char)
  errorCaught : Bool
deriving DecidableEq

/-- `TrackerMonitor.run` (main.py 177-193): the two fetch results are
concatenated (WordPress first); an empty concatenation prints the notice and
returns before any file is written.  Otherwise the steps run in source
order: `save` (185), the charts (186, skipped when there are no categories,
main.py 153-167), `_display_results` (187), `_create_markdown_report` (188).
When the record dates mix offset-aware and naive values, the `sorted` call
inside `_display_results` raises `TypeError` — caught at 189 — so the
Markdown report at 188 never runs and README.md is not written, though the
snapshots and charts already were. -/
def monitor_run (now : PyDateTime) (wp reddit : List TrackerData) : RunOutcome :=
  let trackers := wp ++ reddit
  if trackers = [] then
    { noTrackersNotice := true, filesWritten := [], errorCaught := false }
  else
    { noTrackersNotice := false
      filesWritten :=
        [datedFileName now, latestFileName] ++
        (if categoryStats trackers = [] then [] else chartFileNames) ++
        (if mixedAwareness trackers then [] else [readmeFileName])
      errorCaught := mixedAwareness trackers }

/-- Outcome of one `session.get` call inside the scraper's retry loop:
either an exception from the transport, or a response with a status code and
a body (`response.text`). -/
inductive HttpAttempt where
  | transportError : HttpAttempt
  | response (status : Nat) (body : List Char) : HttpAttempt
deriving DecidableEq

/-- The `for _ in range(3)` loop of `sayfa_icerik_al` (scraper.py 38-47):
`att i` is what the `(i+1)`-st GET would produce, `fuel` the remaining loop
iterations.  A transport error propagates to the handler at 48 (ending the
loop at once); a `200` response returns its body; any other status sleeps
2 seconds and retries.  Result: (GET calls made, 2-second sleeps, returned
text). -/
def fetch_loop (att : Nat → HttpAttempt) : Nat → Nat → Nat × Nat × List Char
  | i, 0 => (i, i, [])
  | i, fuel + 1 =>
    match att i with
    | .transportError => (i + 1, i, [])
    | .response s b => if s = 200 then (i + 1, i, b) else fetch_loop att (i + 1) fuel

/-- `TrackerScraper.sayfa_icerik_al` (scraper.py 35-50); never raises. -/
def sayfa_icerik_al (att : Nat → HttpAttempt) : Nat × Nat × List Char :=
  fetch_loop att 0 3

/-- Worker for `collapseWS`, structurally recursive on a fuel bound. -/
def collapseGo : Nat → List Char → List Char
  | 0, l => l
  | _ + 1, [] => []
  | fuel + 1, c :: rest =>
    if isSpaceCh c then ' ' :: collapseGo fuel (rest.dropWhile isSpaceCh)
    else c :: collapseGo fuel rest

/-- `temizle_metin`'s whitespace collapsing, `re.sub(r'\s+', ' ', metin)`. -/
def collapseWS (s : List Char) : List Char :=
  collapseGo s.length s

/-- `temizle_metin` (scraper.py 22-26). -/
def temizle_metin (s : List Char) : List Char :=
  if s = [] then [] else stripCh (collapseWS s)

/-- `url_duzenle` (scraper.py 28-33). -/
def url_duzenle (url : List Char) : List Char :=
  if url = [] then []
  else if isPrefixCh "http".data url then url
  else "https://opentrackers.org".data ++ url

/-- A `<time>` element or a `class~='date'` element as the scraper reads it:
its `datetime` attribute (when present) and its text. -/
structure DateElem where
  datetimeAttr : Option (List Char)
  text : List Char
deriving DecidableEq

/-- One candidate container element of the fetched page: its tag name, its
class tokens, and the `find` results `veri_ayikla` looks up inside it (the
text of the first `h1`/`h2`/`h3`, the `href` of the first `<a>`, the first
`<time>` / date-class element, and the first summary source). -/
structure SNode where
  tag : List Char
  classes : List (List Char)
  h1 : Option (List Char)
  h2 : Option (List Char)
  h3 : Option (List Char)
  aHref : Option (Option (List Char))
  timeEl : Option DateElem
  dateClassEl : Option DateElem
  entryContent : Option (List Char)
  contentClass : Option (List Char)
  firstP : Option (List Char)
deriving DecidableEq

/-- Lower-casing, for the scraper's case-insensitive class test. -/
def lowerCh (s : List Char) : List Char := s.map Char.toLower

/-- `soup.find_all("article")` (scraper.py 63). -/
def findArticles (page : List SNode) : List SNode :=
  page.filter (fun n => n.tag == "article".data)

/-- `soup.find_all("div", class_=lambda x: x and ('post' in x.lower()))`
(scraper.py 64); an element matches when any of its class tokens contains
"post" case-insensitively (an empty token is falsy and cannot match). -/
def findPostClassDivs (page : List SNode) : List SNode :=
  page.filter (fun n =>
    n.tag == "div".data &&
    n.classes.any (fun c => containsCh (lowerCh c) "post".data))

/-- `soup.find_all("div", class_="post-list")` (scraper.py 65). -/
def findPostListDivs (page : List SNode) : List SNode :=
  page.filter (fun n => n.tag == "div".data && n.classes.contains "post-list".data)

/-- The `or`-chain at scraper.py 62-66: the first strategy that yields at
least one match wins. -/
def post_containers (page : List SNode) : List SNode :=
  let a := findArticles page
  if a ≠ [] then a
  else
    let b := findPostClassDivs page
    if b ≠ [] then b else findPostListDivs page

/-- One scraped record (the dict built at scraper.py 118-124). -/
structure ScrapedPost where
  baslik : List Char
  baglanti : List Char
  tarih : List Char
  ozet : List Char
  zaman : List Char
deriving DecidableEq

/-- `date_elem.get('datetime') or date_elem.text` (scraper.py 103): the
machine-readable attribute when present and non-empty, else the text. -/
def dateOfElem (e : DateElem) : List Char :=
  match e.datetimeAttr with
  | some a => if a = [] then e.text else a
  | none => e.text

/-- The per-container body of the loop at scraper.py 73-129.  `none` models
`continue` (no heading among `h1`-`h3`, empty heading text, no `<a>`, or a
missing/empty `href`): the container is skipped and, thanks to the
per-container `try`/`except`, only that container. `nowDate` stands for
`datetime.now().strftime("%Y-%m-%d")` and `nowStamp` for
`datetime.now().strftime("%Y-%m-%d %H:%M:%S")`. -/
def parse_container (nowDate nowStamp : List Char) (n : SNode) : Option ScrapedPost :=
  let title? :=
    match n.h1 with
    | some t => some t
    | none =>
      match n.h2 with
      | some t => some t
      | none => n.h3
  match title? with
  | none => none
  | some title =>
    if title = [] then none
    else
      match n.aHref with
      | none => none
      | some href? =>
        match href? with
        | none => none
        | some link =>
          if link = [] then none
          else
            let date :=
              match n.timeEl with
              | some e => dateOfElem e
              | none =>
                match n.dateClassEl with
                | some e => dateOfElem e
                | none => nowDate
            let content :=
              match n.entryContent with
              | some c => temizle_metin c
              | none =>
                match n.contentClass with
                | some c => temizle_metin c
                | none =>
                  match n.firstP with
                  | some c => temizle_metin c
                  | none => []
            some {
              baslik := temizle_metin title
              baglanti := url_duzenle link
              tarih := temizle_metin date
              ozet := if content = [] then [] else content.take 200 ++ "...".data
              zaman := nowStamp }

/-- The records collected by the container loop, in container order
(scraper.py 73-129). -/
def scrape_items (nowDate nowStamp : List Char) (page : List SNode) :
    List ScrapedPost :=
  (post_containers page).filterMap (parse_container nowDate nowStamp)

/-- Lexicographic `<=` on char lists (Python string comparison, by code
point). -/
def lexLeCh : List Char → List Char → Bool
  | [], _ => true
  | _ :: _, [] => false
  | a :: as, b :: bs => if a = b then lexLeCh as bs else decide (a < b)

/-- Key order of `sorted(veriler, key=lambda x: x['tarih'], reverse=True)`
(scraper.py 131). -/
def tarihGe (a b : ScrapedPost) : Prop := lexLeCh b.tarih a.tarih = true

instance : DecidableRel tarihGe := fun a b => by unfold tarihGe; infer_instance

/-- `veri_ayikla` (scraper.py 52-135) applied to an already-fetched,
non-empty page: select containers, parse each, sort by the raw date text
descending. -/
def veri_ayikla (nowDate nowStamp : List Char) (page : List SNode) :
    List ScrapedPost :=
  (scrape_items nowDate nowStamp page).insertionSort tarihGe

theorem wp_parse_status_name (post : WPPost) (title : List Char) (r : TrackerData)
    (ht : post.titleRendered = some title) (hr : wp_parse_post post = some r) :
    r.status = titleStatus title ∧ r.name = cleanTitle title := by
  cases hex : post.excerptRendered with
  | none => simp [wp_parse_post, ht, hex] at hr
  | some ex =>
  cases hterms : post.terms with
  | none => simp [wp_parse_post, ht, hex, hterms] at hr
  | some terms =>
  cases hdate : post.date with
  | none => simp [wp_parse_post, ht, hex, hterms, hdate] at hr
  | some dateRaw =>
  cases hlink : post.link with
  | none => simp [wp_parse_post, ht, hex, hterms, hdate, hlink] at hr
  | some link =>
  cases hcats : optionTraverse termCategory terms with
  | none => simp [wp_parse_post, ht, hex, hterms, hdate, hlink, hcats] at hr
  | some cats =>
  cases hdt : parseIso (replaceAllWith ['Z'] "+00:00".data dateRaw) with
  | none => simp [wp_parse_post, ht, hex, hterms, hdate, hlink, hcats, hdt] at hr
  | some dt =>
    simp only [wp_parse_post, ht, hex, hterms, hdate, hlink, hcats, hdt,
      Option.some.injEq] at hr
    rw [← hr]
    exact ⟨rfl, rfl⟩

/-- C1 counterexample: the adapters *do* produce a closed status — a title
without the marker phrase yields `status = false` for both adapters — and a
title that contains the phrase at a position not preceded by a space keeps
the phrase in the cleaned name. -/
theorem C1_counterexample :
    (wp_parse_post
      { titleRendered := some "Some Tracker".data
        excerptRendered := some []
        date := some "2024-01-01T00:00:00".data
        link := some "https://example.org/x".data
        terms := some [] }).map TrackerData.status = some false ∧
    (reddit_parse_post "OpenSignup".data ⟨2024, 1, 1, 0, 0, 0, none⟩
      { title := some "Some Tracker".data, selftext := none,
        created_utc := none, url := none, id := none }).status = false ∧
    (wp_parse_post
      { titleRendered := some "Xis Open for Limited Signup!".data
        excerptRendered := some []
        date := some "2024-01-01T00:00:00".data
        link := some "https://example.org/x".data
        terms := some [] }).map
      (fun r => (r.status, containsCh r.name openPhrase)) = some (true, true) := by
  refine ⟨?_, ?_, ?_⟩ <;> decide

/-- C1 (amended): for both adapters, the produced record's `isOpen`/`status`
is true exactly when the (entity-decoded) title contains the exact phrase
"is Open for Limited Signup!" as a substring — so a title lacking the phrase
yields a *closed* record, and the adapters do produce closed status.  The
name is the title with the space-preceded occurrences of the phrase deleted
and surrounding whitespace stripped (so the phrase can survive in the name
when an occurrence is not preceded by a space). -/
theorem C1_amended :
    (∀ (post : WPPost) (title : List Char) (r : TrackerData),
      post.titleRendered = some title → wp_parse_post post = some r →
      ((r.status = true ↔ ∃ s t, title = s ++ openPhrase ++ t) ∧
        r.name = cleanTitle title)) ∧
    (∀ (sub : List Char) (now : PyDateTime) (post : RedditPost) (title : List Char),
      post.title = some title →
      ((reddit_parse_post sub now post).status = true ↔
        ∃ s t, title = s ++ openPhrase ++ t)) := by
  constructor
  · intro post title r ht hr
    obtain ⟨hs, hn⟩ := wp_parse_status_name post title r ht hr
    refine ⟨?_, hn⟩
    rw [hs]
    exact containsCh_iff title openPhrase
  · intro sub now post title ht
    show titleStatus (post.title.getD []) = true ↔ _
    rw [ht, Option.getD_some]
    exact containsCh_iff title openPhrase

/-- An open-signup WordPress post, used to instantiate `C1_amended`. -/
def wpOpenDemoPost : WPPost :=
  { titleRendered := some "X is Open for Limited Signup!".data
    excerptRendered := some []
    date := some "2024-01-01T00:00:00".data
    link := some "https://example.org/x".data
    terms := some [] }

theorem C1_amended_witness :
    ∃ r, wp_parse_post wpOpenDemoPost = some r ∧
      (r.status = true ↔
        ∃ s t, "X is Open for Limited Signup!".data = s ++ openPhrase ++ t) := by
  match hr : wp_parse_post wpOpenDemoPost with
  | none => exact absurd hr (by decide)
  | some r =>
    exact ⟨r, rfl, (C1_amended.1 wpOpenDemoPost _ r rfl hr).1⟩

/-- C4 counterexample: the WordPress adapter has no fallback for the cleaned
name — an empty title produces a record whose `name` is empty. -/
theorem C4_counterexample :
    (wp_parse_post
      { titleRendered := some []
        excerptRendered := some []
        date := some "2024-01-01T00:00:00".data
        link := some "https://example.org/e".data
        terms := some [] }).map TrackerData.name = some [] := by
  decide

/-- C4 (amended): only the Reddit adapter falls back when stripping leaves an
empty string — to the post's `id`, or to "No Title" when `id` is absent — so
its records' names are non-empty whenever the source `id` is not itself the
empty string; the WordPress adapter can produce an empty name
(`C4_counterexample`). -/
theorem C4_amended (sub : List Char) (now : PyDateTime) (post : RedditPost)
    (h : post.id ≠ some []) : (reddit_parse_post sub now post).name ≠ [] := by
  show (if cleanTitle (post.title.getD []) = []
      then post.id.getD "No Title".data
      else cleanTitle (post.title.getD [])) ≠ []
  split
  · cases hid : post.id with
    | none => decide
    | some i =>
      simp only [Option.getD_some]
      intro he
      exact h (by rw [hid, he])
  · next hc => exact hc

theorem C4_amended_witness :
    (reddit_parse_post [] ⟨2024, 1, 1, 0, 0, 0, none⟩
      { title := some [], selftext := none, created_utc := none,
        url := none, id := none }).name ≠ [] :=
  C4_amended [] ⟨2024, 1, 1, 0, 0, 0, none⟩
    { title := some [], selftext := none, created_utc := none,
      url := none, id := none } (by decide)

/-- A minimal record with the given date, for concrete sorting checks. -/
def demoTracker (d : PyDateTime) : TrackerData :=
  { name := "t".data, date := d, description := [], categories := [],
    url := [], status := true }

/-- A record dated 2024-01-03. -/
def demoJan3 : TrackerData := demoTracker ⟨2024, 1, 3, 0, 0, 0, none⟩

/-- A record dated 2024-01-01. -/
def demoJan1 : TrackerData := demoTracker ⟨2024, 1, 1, 0, 0, 0, none⟩

/-- A record dated 2024-01-02. -/
def demoJan2 : TrackerData := demoTracker ⟨2024, 1, 2, 0, 0, 0, none⟩

/-- A WordPress post whose `date` carries the trailing `Z` the spec says
the source emits (§4.1); `fromisoformat` after the `Z → +00:00` rewrite
yields an offset-*aware* datetime. -/
def zWPPost : WPPost :=
  { titleRendered := some "Z is Open for Limited Signup!".data
    excerptRendered := some []
    date := some "2024-01-01T00:00:00Z".data
    link := some "https://example.org/z".data
    terms := some [] }

/-- A record produced by the Reddit adapter: its date comes from
`utcnow()` / `utcfromtimestamp` and is always naive. -/
def naiveRedditDemo : TrackerData :=
  reddit_parse_post "OpenSignup".data ⟨2024, 1, 2, 0, 0, 0, none⟩
    { title := some "N".data, selftext := none, created_utc := none,
      url := none, id := none }

/-- C2 counterexample: a mix the two adapters actually produce — a
WordPress record parsed from a `Z`-suffixed date (offset-aware) together
with a Reddit record (naive) — makes the `sorted` call raise `TypeError`,
so neither the console table nor the Markdown report renders any row:
the claimed sorted rendering does not hold for this mix. -/
theorem C2_counterexample :
    (wp_parse_post zWPPost).map (fun r => r.date.tz) = some (some 0) ∧
    naiveRedditDemo.date.tz = none ∧
    (wp_parse_post zWPPost).map
      (fun r => (display_rows [r, naiveRedditDemo],
        report_rows [r, naiveRedditDemo])) = some (.error (), .error ()) := by
  refine ⟨rfl, rfl, rfl⟩

/-- C2 (amended): for every list whose dates are uniformly naive or
uniformly offset-aware, both renderers produce exactly the records sorted
by `date` descending (a permutation, pairwise descending), and the spec's
2024-01-03 / 01-01 / 01-02 example renders as 01-03, 01-02, 01-01; but for
a list mixing an offset-aware WordPress date with a naive Reddit date the
sort raises `TypeError` and no rows are rendered at all. -/
theorem C2_amended :
    (∀ ts : List TrackerData, mixedAwareness ts = false →
      display_rows ts = .ok ((sortByDateDesc ts).map displayRow) ∧
      report_rows ts = .ok ((sortByDateDesc ts).map markdownRow) ∧
      (sortByDateDesc ts).Perm ts ∧
      (sortByDateDesc ts).Pairwise dateGe) ∧
    (∀ ts, mixedAwareness ts = true →
      display_rows ts = .error () ∧ report_rows ts = .error ()) ∧
    sortByDateDesc [demoJan3, demoJan1, demoJan2] = [demoJan3, demoJan2, demoJan1] := by
  refine ⟨?_, ?_, by decide⟩
  · intro ts h
    refine ⟨?_, ?_, List.perm_insertionSort dateGe ts,
      List.sorted_insertionSort dateGe ts⟩
    · simp [display_rows, pySortDesc, h]
    · simp [report_rows, pySortDesc, h]
  · intro ts h
    constructor
    · simp [display_rows, pySortDesc, h]
    · simp [report_rows, pySortDesc, h]

theorem C2_amended_witness :
    display_rows [demoJan3, demoJan1, demoJan2] =
      .ok ((sortByDateDesc [demoJan3, demoJan1, demoJan2]).map displayRow) ∧
    report_rows [demoJan3, demoJan1, demoJan2] =
      .ok ((sortByDateDesc [demoJan3, demoJan1, demoJan2]).map markdownRow) ∧
    (sortByDateDesc [demoJan3, demoJan1, demoJan2]).Perm
      [demoJan3, demoJan1, demoJan2] ∧
    (sortByDateDesc [demoJan3, demoJan1, demoJan2]).Pairwise dateGe :=
  C2_amended.1 [demoJan3, demoJan1, demoJan2] (by decide)

theorem optionTraverse_eq_none_of_mem {α β : Type} (f : α → Option β) :
    ∀ (l : List α) (a : α), a ∈ l → f a = none → optionTraverse f l = none
  | [], a, ha, _ => absurd ha (List.not_mem_nil a)
  | x :: xs, a, ha, hf => by
    unfold optionTraverse
    rcases List.mem_cons.mp ha with rfl | hmem
    · rw [hf]
    · cases hx : f x with
      | none => rfl
      | some b => rw [optionTraverse_eq_none_of_mem f xs a hmem hf]

/-- C3: both `fetch_posts` are total functions of the response (the model of
"never raises"), and they degrade to the empty list — with no per-item
results — on a transport/HTTP/JSON error as well as when any single post in
an otherwise well-formed response fails to parse. -/
theorem C3_fetch_fail_soft :
    (∀ e, wp_fetch_posts (.error e) = []) ∧
    (∀ posts : List WPPost, (∃ p ∈ posts, wp_parse_post p = none) →
      wp_fetch_posts (.ok posts) = []) ∧
    (∀ sub now e, reddit_fetch_posts sub now (.error e) = []) ∧
    (∀ sub now cs, (∃ c ∈ cs, c.data = none) →
      reddit_fetch_posts sub now (.ok { data := some { children := some cs } }) = []) := by
  refine ⟨fun _ => rfl, ?_, fun _ _ _ => rfl, ?_⟩
  · rintro posts ⟨p, hp, hnone⟩
    show (match optionTraverse wp_parse_post posts with
      | some l => l
      | none => ([] : List TrackerData)) = []
    rw [optionTraverse_eq_none_of_mem wp_parse_post posts p hp hnone]
  · rintro sub now cs ⟨c, hc, hnone⟩
    show (match optionTraverse RedditChild.data cs with
      | none => ([] : List TrackerData)
      | some posts => posts.map (reddit_parse_post sub now)) = []
    rw [optionTraverse_eq_none_of_mem RedditChild.data cs c hc hnone]

/-- A WordPress post whose JSON shape is wrong (every key missing). -/
def badWPPost : WPPost :=
  { titleRendered := none, excerptRendered := none, date := none,
    link := none, terms := none }

/-- A Reddit listing whose single child lacks the `data` key. -/
def badRedditListing : RedditListing :=
  { data := some { children := some [{ data := none }] } }

theorem C3_fetch_fail_soft_witness :
    wp_fetch_posts (.ok [badWPPost]) = [] ∧
    reddit_fetch_posts [] ⟨2024, 1, 1, 0, 0, 0, none⟩ (.ok badRedditListing) = [] :=
  ⟨C3_fetch_fail_soft.2.1 [badWPPost] ⟨badWPPost, List.mem_singleton_self _, rfl⟩,
   C3_fetch_fail_soft.2.2.2 [] ⟨2024, 1, 1, 0, 0, 0, none⟩ [{ data := none }]
     ⟨{ data := none }, List.mem_singleton_self _, rfl⟩⟩

/-- A record with the aware-dated shape the WordPress adapter produces for
`Z`-suffixed dates, used to drive the mixed-awareness error path of `run`. -/
def demoAware : TrackerData := demoTracker ⟨2024, 1, 1, 0, 0, 0, some 0⟩

theorem readme_ne_datedFileName (now : PyDateTime) :
    readmeFileName ≠ datedFileName now := by
  intro h
  have h1 : (datedFileName now).head? = some 't' := rfl
  rw [← h] at h1
  exact absurd h1 (by decide)

/-- C6 counterexample: a non-empty run mixing an aware (WordPress-style,
`Z`-dated) record with a naive (Reddit-style) record does *not* proceed to
complete reporting — the snapshots are written, but the `TypeError` raised
by `sorted` in `_display_results` is caught at main.py 189 before
`_create_markdown_report` runs, so README.md is never written and the
error handler fires. -/
theorem C6_counterexample :
    (monitor_run ⟨2024, 1, 5, 0, 0, 0, none⟩ [demoAware] [demoJan1]).noTrackersNotice
        = false ∧
    datedFileName ⟨2024, 1, 5, 0, 0, 0, none⟩ ∈
      (monitor_run ⟨2024, 1, 5, 0, 0, 0, none⟩ [demoAware] [demoJan1]).filesWritten ∧
    latestFileName ∈
      (monitor_run ⟨2024, 1, 5, 0, 0, 0, none⟩ [demoAware] [demoJan1]).filesWritten ∧
    readmeFileName ∉
      (monitor_run ⟨2024, 1, 5, 0, 0, 0, none⟩ [demoAware] [demoJan1]).filesWritten ∧
    (monitor_run ⟨2024, 1, 5, 0, 0, 0, none⟩ [demoAware] [demoJan1]).errorCaught
        = true := by
  refine ⟨rfl, by decide, by decide, by decide, rfl⟩

/-- C6 (amended): with both fetches empty, `run` prints the "No trackers
found" notice, writes nothing and exits cleanly; with a non-empty combined
list the notice is not printed and the snapshot files are always written;
reporting completes (README.md is written, no error caught) exactly when
the record dates do not mix offset-aware and naive values — on a mixed list
the caught `TypeError` skips README.md. -/
theorem C6_amended :
    (∀ now, monitor_run now [] [] = ⟨true, [], false⟩) ∧
    (∀ now wp rd, wp ++ rd ≠ [] →
      (monitor_run now wp rd).noTrackersNotice = false ∧
      datedFileName now ∈ (monitor_run now wp rd).filesWritten ∧
      latestFileName ∈ (monitor_run now wp rd).filesWritten ∧
      (mixedAwareness (wp ++ rd) = false →
        readmeFileName ∈ (monitor_run now wp rd).filesWritten ∧
        (monitor_run now wp rd).errorCaught = false) ∧
      (mixedAwareness (wp ++ rd) = true →
        readmeFileName ∉ (monitor_run now wp rd).filesWritten ∧
        (monitor_run now wp rd).errorCaught = true)) := by
  constructor
  · intro now
    rfl
  · intro now wp rd h
    unfold monitor_run
    rw [if_neg h]
    refine ⟨rfl, by simp, by simp, ?_, ?_⟩
    · intro hmix
      constructor <;> simp [hmix]
    · intro hmix
      have h2 : readmeFileName ≠ latestFileName := by decide
      have h3 : readmeFileName ∉ chartFileNames := by decide
      refine ⟨?_, by simp [hmix]⟩
      by_cases hc : categoryStats (wp ++ rd) = [] <;>
        simp [hmix, hc, readme_ne_datedFileName now, h2, h3]

theorem C6_amended_witness :
    readmeFileName ∈
      (monitor_run ⟨2024, 1, 1, 0, 0, 0, none⟩ [demoJan1] []).filesWritten ∧
    (monitor_run ⟨2024, 1, 1, 0, 0, 0, none⟩ [demoJan1] []).errorCaught = false :=
  (C6_amended.2 ⟨2024, 1, 1, 0, 0, 0, none⟩ [demoJan1] [] (by decide)).2.2.2.1
    (by decide)

theorem lookupCat_bumpCat (s : List (List Char × Nat)) (c c' : List Char) :
    lookupCat (bumpCat s c) c' =
      if c' = c then lookupCat s c' + 1 else lookupCat s c' := by
  induction s with
  | nil =>
    simp only [bumpCat, lookupCat]
    by_cases h : c' = c
    · subst h
      simp
    · rw [if_neg (Ne.symm h), if_neg h]
  | cons kv rest ih =>
    obtain ⟨k, v⟩ := kv
    simp only [bumpCat, lookupCat]
    by_cases hk : k = c
    · subst hk
      simp only [if_pos rfl, lookupCat]
      by_cases h : k = c'
      · subst h
        simp
      · rw [if_neg h, if_neg (Ne.symm h), if_neg h]
    · rw [if_neg hk]
      simp only [lookupCat, ih]
      by_cases h1 : k = c'
      · by_cases h2 : c' = c
        · exact absurd (h1.trans h2) hk
        · simp [h1, h2]
      · by_cases h2 : c' = c <;> simp [h1, h2, hk]

theorem lookupCat_foldl_cats (cats : List (List Char)) :
    ∀ (s : List (List Char × Nat)) (c : List Char),
      lookupCat (cats.foldl bumpCat s) c = lookupCat s c + cats.count c := by
  induction cats with
  | nil => simp
  | cons c0 rest ih =>
    intro s c
    rw [List.foldl_cons, ih, lookupCat_bumpCat]
    by_cases h : c = c0 <;> (simp [List.count_cons, h]; try omega)

theorem lookupCat_categoryStats_aux (ts : List TrackerData) :
    ∀ (s : List (List Char × Nat)) (c : List Char),
      lookupCat (ts.foldl (fun s t => t.categories.foldl bumpCat s) s) c =
        lookupCat s c + (ts.map (fun t => t.categories.count c)).sum := by
  induction ts with
  | nil => simp
  | cons t rest ih =>
    intro s c
    simp only [List.foldl_cons, ih, lookupCat_foldl_cats, List.map_cons,
      List.sum_cons]
    omega

/-- A record with categories ["A", "B"]. -/
def demoCatAB : TrackerData :=
  { name := "x".data, date := ⟨2024, 1, 1, 0, 0, 0, none⟩, description := [],
    categories := ["A".data, "B".data], url := [], status := true }

/-- A record with categories ["A"]. -/
def demoCatA : TrackerData :=
  { name := "y".data, date := ⟨2024, 1, 1, 0, 0, 0, none⟩, description := [],
    categories := ["A".data], url := [], status := true }

/-- C7: the recorded count of every category equals the number of times that
category string occurs across all records' `categories` lists (a record with
several categories increments each), and on the spec's example the stats are
exactly {A: 2, B: 1}. -/
theorem C7_category_counting :
    (∀ ts c, lookupCat (categoryStats ts) c =
      (ts.map (fun t => t.categories.count c)).sum) ∧
    categoryStats [demoCatAB, demoCatA] = [("A".data, 2), ("B".data, 1)] := by
  constructor
  · intro ts c
    unfold categoryStats
    rw [lookupCat_categoryStats_aux]
    simp [lookupCat]
  · decide

theorem readFS_writeFS_self (fs : List (List Char × SaveData)) (n : List Char)
    (c : SaveData) : readFS (writeFS fs n c) n = some c := by
  induction fs with
  | nil => simp [writeFS, readFS]
  | cons kv rest ih =>
    obtain ⟨k, v⟩ := kv
    by_cases h : k = n
    · subst h
      simp [writeFS, readFS]
    · simp [writeFS, readFS, h, ih]

theorem readFS_writeFS_other (fs : List (List Char × SaveData)) (n m : List Char)
    (c : SaveData) (h : m ≠ n) : readFS (writeFS fs n c) m = readFS fs m := by
  induction fs with
  | nil => simp [writeFS, readFS, Ne.symm h]
  | cons kv rest ih =>
    obtain ⟨k, v⟩ := kv
    by_cases hk : k = n
    · subst hk
      simp [writeFS, readFS, Ne.symm h]
    · simp [writeFS, readFS, hk, ih]

theorem datedFileName_ne_latest (now : PyDateTime) :
    datedFileName now ≠ latestFileName := by
  intro h
  have h1 : (datedFileName now).head? = some 't' := rfl
  rw [h] at h1
  exact absurd h1 (by decide)

/-- C8: every save writes the *same* serialized object — the run timestamp
plus the records with their date rendered as an ISO-8601 string — to the
dated file and to `latest.json`; after a save both files hold that object;
and a second save on the same calendar date overwrites the day's dated file
with the second run's content. -/
theorem C8_save_both_files :
    (∀ now ts, save_writes now ts =
      [(datedFileName now, saveData now ts), (latestFileName, saveData now ts)] ∧
      saveData now ts = ⟨now.isoStr, ts.map serialize_tracker⟩) ∧
    (∀ fs now ts,
      readFS (apply_save fs now ts) (datedFileName now) = some (saveData now ts) ∧
      readFS (apply_save fs now ts) latestFileName = some (saveData now ts)) ∧
    (∀ fs now1 ts1 now2 ts2, datedFileName now1 = datedFileName now2 →
      readFS (apply_save (apply_save fs now1 ts1) now2 ts2) (datedFileName now1) =
        some (saveData now2 ts2)) := by
  refine ⟨fun _ _ => ⟨rfl, rfl⟩, ?_, ?_⟩
  · intro fs now ts
    show readFS (writeFS (writeFS fs (datedFileName now) (saveData now ts))
        latestFileName (saveData now ts)) (datedFileName now) = _ ∧
      readFS (writeFS (writeFS fs (datedFileName now) (saveData now ts))
        latestFileName (saveData now ts)) latestFileName = _
    constructor
    · rw [readFS_writeFS_other _ _ _ _ (datedFileName_ne_latest now),
        readFS_writeFS_self]
    · rw [readFS_writeFS_self]
  · intro fs now1 ts1 now2 ts2 h
    show readFS (writeFS (writeFS (apply_save fs now1 ts1) (datedFileName now2)
        (saveData now2 ts2)) latestFileName (saveData now2 ts2))
        (datedFileName now1) = _
    rw [h, readFS_writeFS_other _ _ _ _ (datedFileName_ne_latest now2),
      readFS_writeFS_self]

theorem C8_save_both_files_witness :
    readFS (apply_save (apply_save [] ⟨2024, 1, 1, 8, 0, 0, none⟩ [])
        ⟨2024, 1, 1, 20, 0, 0, none⟩ [demoJan1])
      (datedFileName ⟨2024, 1, 1, 8, 0, 0, none⟩) =
      some (saveData ⟨2024, 1, 1, 20, 0, 0, none⟩ [demoJan1]) :=
  C8_save_both_files.2.2 [] ⟨2024, 1, 1, 8, 0, 0, none⟩ [] ⟨2024, 1, 1, 20, 0, 0, none⟩
    [demoJan1] rfl

/-- C10: because `created_utc` is tested for truthiness (`if created`), a
present-but-zero `created_utc` falls back to `utcnow()` — not to the epoch
1970-01-01, which is what `utcfromtimestamp 0` would give — while every
non-zero value is converted with `utcfromtimestamp`. -/
theorem C10_created_utc_zero_uses_now :
    (∀ sub now post, post.created_utc = some 0 →
      (reddit_parse_post sub now post).date = now) ∧
    (∀ sub now post c, post.created_utc = some c → c ≠ 0 →
      (reddit_parse_post sub now post).date = utcfromtimestamp c) ∧
    utcfromtimestamp 0 = ⟨1970, 1, 1, 0, 0, 0, none⟩ := by
  refine ⟨?_, ?_, by decide⟩
  · intro sub now post h
    show (match post.created_utc with
      | some c => if c ≠ 0 then utcfromtimestamp c else now
      | none => now) = now
    rw [h]
    simp
  · intro sub now post c h hc
    show (match post.created_utc with
      | some c => if c ≠ 0 then utcfromtimestamp c else now
      | none => now) = utcfromtimestamp c
    rw [h]
    simp [hc]

theorem C10_created_utc_zero_uses_now_witness :
    (reddit_parse_post [] ⟨2024, 2, 2, 2, 2, 2, none⟩
      { title := none, selftext := none, created_utc := some 0,
        url := none, id := none }).date = ⟨2024, 2, 2, 2, 2, 2, none⟩ :=
  C10_created_utc_zero_uses_now.1 [] ⟨2024, 2, 2, 2, 2, 2, none⟩
    { title := none, selftext := none, created_utc := some 0,
      url := none, id := none } rfl

/-- C5 counterexample: a transport error on the *first* GET aborts the whole
fetch at once — one call, no retry, empty result — because the exception from
`session.get` propagates past the loop to the handler at scraper.py 48; and a
`204` response (a 2xx status, a success per the claim) is treated as a
failure, exhausting all three attempts and returning the empty string. -/
theorem C5_counterexample :
    sayfa_icerik_al (fun _ => .transportError) = (1, 0, []) ∧
    sayfa_icerik_al (fun _ => .response 204 "ok".data) = (3, 3, []) := by
  constructor <;> rfl

/-- C5 (amended): the loop makes up to 3 GET attempts where a *failed*
attempt is a response with status ≠ 200 (not: any non-2xx), sleeping
2 seconds after each failed response; the empty string is returned after
3 such failures; but a transport error at any attempt ends the fetch
immediately with the empty string and no further attempts. -/
theorem C5_amended :
    (∀ att b0, att 0 = .response 200 b0 → sayfa_icerik_al att = (1, 0, b0)) ∧
    (∀ att, att 0 = .transportError → sayfa_icerik_al att = (1, 0, [])) ∧
    (∀ att s0 b0 b1, att 0 = .response s0 b0 → s0 ≠ 200 →
      att 1 = .response 200 b1 → sayfa_icerik_al att = (2, 1, b1)) ∧
    (∀ att s0 b0, att 0 = .response s0 b0 → s0 ≠ 200 →
      att 1 = .transportError → sayfa_icerik_al att = (2, 1, [])) ∧
    (∀ att s0 b0 s1 b1 b2, att 0 = .response s0 b0 → s0 ≠ 200 →
      att 1 = .response s1 b1 → s1 ≠ 200 →
      att 2 = .response 200 b2 → sayfa_icerik_al att = (3, 2, b2)) ∧
    (∀ att s0 b0 s1 b1, att 0 = .response s0 b0 → s0 ≠ 200 →
      att 1 = .response s1 b1 → s1 ≠ 200 →
      att 2 = .transportError → sayfa_icerik_al att = (3, 2, [])) ∧
    (∀ att s0 b0 s1 b1 s2 b2, att 0 = .response s0 b0 → s0 ≠ 200 →
      att 1 = .response s1 b1 → s1 ≠ 200 →
      att 2 = .response s2 b2 → s2 ≠ 200 → sayfa_icerik_al att = (3, 3, [])) := by
  refine ⟨?_, ?_, ?_, ?_, ?_, ?_, ?_⟩
  · intro att b0 h0
    simp [sayfa_icerik_al, fetch_loop, h0]
  · intro att h0
    simp [sayfa_icerik_al, fetch_loop, h0]
  · intro att s0 b0 b1 h0 hs0 h1
    simp [sayfa_icerik_al, fetch_loop, h0, hs0, h1]
  · intro att s0 b0 h0 hs0 h1
    simp [sayfa_icerik_al, fetch_loop, h0, hs0, h1]
  · intro att s0 b0 s1 b1 b2 h0 hs0 h1 hs1 h2
    simp [sayfa_icerik_al, fetch_loop, h0, hs0, h1, hs1, h2]
  · intro att s0 b0 s1 b1 h0 hs0 h1 hs1 h2
    simp [sayfa_icerik_al, fetch_loop, h0, hs0, h1, hs1, h2]
  · intro att s0 b0 s1 b1 s2 b2 h0 hs0 h1 hs1 h2 hs2
    simp [sayfa_icerik_al, fetch_loop, h0, hs0, h1, hs1, h2, hs2]

theorem C5_amended_witness :
    sayfa_icerik_al (fun _ => .response 404 []) = (3, 3, []) :=
  C5_amended.2.2.2.2.2.2 (fun _ => .response 404 []) 404 [] 404 [] 404 []
    rfl (by decide) rfl (by decide) rfl (by decide)

/-- A page node that is an `article` element. -/
def articleDemoNode : SNode :=
  { tag := "article".data, classes := [], h1 := some "A Tracker".data,
    h2 := none, h3 := none, aHref := some (some "/p/1".data),
    timeEl := none, dateClassEl := none, entryContent := none,
    contentClass := none, firstP := none }

/-- A `div` with class `post-item` (the spec's fallback-chain example). -/
def postItemDemoNode : SNode :=
  { tag := "div".data, classes := ["post-item".data], h1 := some "B".data,
    h2 := none, h3 := none, aHref := some (some "/p/2".data),
    timeEl := none, dateClassEl := none, entryContent := none,
    contentClass := none, firstP := none }

/-- C9: container selection tries `article` elements, then `div`s with a
class containing "post" (case-insensitively), then `div`s of class
`post-list`, keeping the first strategy with at least one match — e.g. a
page with no `article` but a `div` of class `post-item` is found by the
substring strategy; a container with no `h1`-`h3` heading or no anchor is
skipped (`parse_container` yields `none`), and a skipped container removes
only itself from the extracted records. -/
theorem C9_container_selection :
    (∀ page, findArticles page ≠ [] → post_containers page = findArticles page) ∧
    (∀ page, findArticles page = [] → findPostClassDivs page ≠ [] →
      post_containers page = findPostClassDivs page) ∧
    (∀ page, findArticles page = [] → findPostClassDivs page = [] →
      post_containers page = findPostListDivs page) ∧
    post_containers [postItemDemoNode] = [postItemDemoNode] ∧
    (∀ nd ns n, (n.h1 = none ∧ n.h2 = none ∧ n.h3 = none) ∨ n.aHref = none →
      parse_container nd ns n = none) ∧
    (∀ nd ns page, scrape_items nd ns page =
      (post_containers page).filterMap (parse_container nd ns)) ∧
    (∀ nd ns (l1 l2 : List SNode) n, parse_container nd ns n = none →
      (l1 ++ n :: l2).filterMap (parse_container nd ns) =
        l1.filterMap (parse_container nd ns) ++ l2.filterMap (parse_container nd ns)) := by
  refine ⟨?_, ?_, ?_, by decide, ?_, fun _ _ _ => rfl, ?_⟩
  · intro page h
    show (if findArticles page ≠ [] then findArticles page
      else if findPostClassDivs page ≠ [] then findPostClassDivs page
      else findPostListDivs page) = findArticles page
    rw [if_pos h]
  · intro page ha hb
    show (if findArticles page ≠ [] then findArticles page
      else if findPostClassDivs page ≠ [] then findPostClassDivs page
      else findPostListDivs page) = findPostClassDivs page
    rw [if_neg (by simp [ha]), if_pos hb]
  · intro page ha hb
    show (if findArticles page ≠ [] then findArticles page
      else if findPostClassDivs page ≠ [] then findPostClassDivs page
      else findPostListDivs page) = findPostListDivs page
    rw [if_neg (by simp [ha]), if_neg (by simp [hb])]
  · rintro nd ns n (⟨h1, h2, h3⟩ | ha)
    · simp [parse_container, h1, h2, h3]
    · cases hh1 : n.h1 <;> cases hh2 : n.h2 <;> cases hh3 : n.h3 <;>
        simp [parse_container, hh1, hh2, hh3, ha]
  · intro nd ns l1 l2 n h
    simp [List.filterMap_append, List.filterMap_cons, h]

theorem C9_container_selection_witness :
    post_containers [articleDemoNode] = findArticles [articleDemoNode] :=
  C9_container_selection.1 [articleDemoNode] (by decide)
